import Mathlib

/-!
# Verification of the `opentracing_helpers` Go package

Shallow embedding of the two helpers of the repository:

* `TraceHandler` — wraps an inbound `http.Handler`, extracting a parent
  `SpanContext` from the request headers, starting a span (child of the
  extracted context when present, a root span otherwise), storing the span
  in the request's context, invoking the wrapped handler, and finishing the
  span via `defer` on every exit path.  Two variants exist in the sources:
  the one in `src/opentracing_helpers.go` names the span after the route
  pattern alone, the one in `src/unnamed/part_000` prefixes the HTTP
  method (`r.Method + " " + pattern`).  We embed both, in the namespaces
  `RootGo` and `Part000`.

* `TraceRequest` (only in `src/unnamed/part_000`) — starts a span from
  the supplied context, injects its `SpanContext` into the request headers
  (discarding any injection error), attaches an `httptrace.ClientTrace`
  whose callbacks append one structured log entry per lifecycle event,
  and returns the augmented request together with the still-open span.

The external `opentracing-go` tracer is modelled abstractly as a `Tracer`
record of `extract`/`inject` functions; its `StartSpan` contract (record
the operation name and the optional parent reference, begin unfinished)
is modelled by `startSpan`.  Go's `defer span.Finish()` is modelled by
applying `Span.finish` after the wrapped handler's outcome — normal or
panicking — has been produced, which is exactly the guarantee `defer`
gives.  Side effects on spans (mutation through the closures of the
`ClientTrace` callbacks) are modelled as explicit state-passing
`Span → Span` functions.
-/

set_option autoImplicit false

namespace OpentracingHelpers

/-- A serializable span identity (trace id, span id), carried across
process boundaries through request headers. -/
structure SpanContext where
  traceID : Nat
  spanID : Nat
deriving DecidableEq

/-- An HTTP header map, modelled as an association list of key/value
strings (the `opentracing.HTTPHeadersCarrier`). -/
abbrev Headers := List (String × String)

/-- One field of a structured log entry, as produced by
`log.String` / `log.Object` / `log.Error`. -/
structure LogField where
  key : String
  value : String
deriving DecidableEq

/-- The observable state of an `opentracing.Span`: its operation name, the
optional parent reference it was started with (`opentracing.ChildOf`),
its own `SpanContext`, its accumulated log entries (one list of fields
per `LogFields` call), and how many times `Finish` has been called. -/
structure Span where
  operationName : String
  parentCtx : Option SpanContext
  spanContext : SpanContext
  logs : List (List LogField)
  finishCount : Nat
deriving DecidableEq

/-- The carrier formats of `opentracing-go` (`opentracing.BuiltinFormat`);
the helpers only ever use `httpHeaders`. -/
inductive BuiltinFormat where
  | httpHeaders
  | textMap
  | binary
deriving DecidableEq

/-- The part of the `opentracing.Tracer` interface the helpers call:
`Extract` deserializes a `SpanContext` from a carrier (failing with an
error when none is present), `Inject` serializes one into a carrier
(returning the updated headers, or an error).  This stands for
`opentracing.GlobalTracer()`. -/
structure Tracer where
  extract : BuiltinFormat → Headers → Except String SpanContext
  inject : SpanContext → BuiltinFormat → Headers → Except String Headers

/-- `tracer.StartSpan(name)` / `tracer.StartSpan(name, ChildOf(parent))`:
a fresh span, unfinished and with no logs, recording the operation name
and the optional parent.  `fresh` supplies the tracer's fresh span id;
a child shares its parent's trace id. -/
def startSpan (operationName : String) (parent : Option SpanContext) (fresh : Nat) : Span :=
  { operationName := operationName
    parentCtx := parent
    spanContext :=
      { traceID := match parent with
          | some p => p.traceID
          | none => fresh
        spanID := fresh }
    logs := []
    finishCount := 0 }

/-- `span.Finish()`. -/
def Span.finish (s : Span) : Span :=
  { s with finishCount := s.finishCount + 1 }

/-- `span.LogFields(fields...)`: appends exactly one log entry. -/
def Span.logFields (s : Span) (fields : List LogField) : Span :=
  { s with logs := s.logs ++ [fields] }

/-- The `httptrace.ClientTrace` callback set built by `TraceRequest`.
Each callback closes over the span; here that mutation is modelled as a
`Span → Span` state transformer.  The `httptrace` info structs, which the
code only passes to `log.Object`, are abstracted as their serialized
`String` form; a connect error is an `Option String` (Go `error`). -/
structure ClientTrace where
  getConn : String → Span → Span
  gotConn : String → Span → Span
  dnsStart : String → Span → Span
  dnsDone : String → Span → Span
  connectDone : String → String → Option String → Span → Span
  gotFirstResponseByte : Span → Span
  wroteRequest : String → Span → Span

/-- A Go `context.Context`, restricted to the two values the helpers
store in it: the span of `opentracing.ContextWithSpan` and the
`ClientTrace` of `httptrace.WithClientTrace`. -/
structure Context where
  span : Option Span
  clientTrace : Option ClientTrace

/-- An `http.Request`: its method, its header map, and its context. -/
structure Request where
  method : String
  header : Headers
  ctx : Context

/-- `opentracing.ContextWithSpan`. -/
def contextWithSpan (ctx : Context) (s : Span) : Context :=
  { ctx with span := some s }

/-- `opentracing.SpanFromContext`. -/
def spanFromContext (ctx : Context) : Option Span :=
  ctx.span

/-- `httptrace.WithClientTrace`. -/
def withClientTrace (ctx : Context) (t : ClientTrace) : Context :=
  { ctx with clientTrace := some t }

/-- `opentracing.StartSpanFromContext`: starts a span as a child of the
span found in the context, if any, and returns it with the enriched
context. -/
def startSpanFromContext (ctx : Context) (operationName : String) (fresh : Nat) :
    Span × Context :=
  match spanFromContext ctx with
  | some parentSpan =>
      let s := startSpan operationName (some parentSpan.spanContext) fresh
      (s, contextWithSpan ctx s)
  | none =>
      let s := startSpan operationName none fresh
      (s, contextWithSpan ctx s)

/-- The result of running a wrapped handler: it either returns normally or
panics.  `defer span.Finish()` runs in both cases. -/
inductive Outcome where
  | normal
  | panicked (msg : String)
deriving DecidableEq

namespace RootGo

/-- `TraceHandler` of `src/opentracing_helpers.go`: returns the pattern
together with the instrumented handler.  The handler extracts a parent
`SpanContext` from the request headers discarding any error, starts a
span named after the pattern (child of the extracted context when one was
found), defers `span.Finish()`, stores the span in the request's context
and invokes the wrapped handler.  The instrumented handler here yields
the finished span next to the wrapped handler's outcome, so that the
span's final state is observable. -/
def TraceHandler (tracer : Tracer) (fresh : Nat) (pattern : String)
    (handler : Request → Outcome) : String × (Request → Span × Outcome) :=
  (pattern, fun r =>
    let carrier := r.header
    let parentSpanContext : Option SpanContext :=
      (tracer.extract BuiltinFormat.httpHeaders carrier).toOption
    let span : Span :=
      match parentSpanContext with
      | none => startSpan pattern none fresh
      | some p => startSpan pattern (some p) fresh
    let r := { r with ctx := contextWithSpan r.ctx span }
    let outcome := handler r
    (span.finish, outcome))

end RootGo

namespace Part000

/-- `TraceHandler` of `src/unnamed/part_000`: identical to the
`src/opentracing_helpers.go` variant except that the span is named
`r.Method + " " + pattern`. -/
def TraceHandler (tracer : Tracer) (fresh : Nat) (pattern : String)
    (handler : Request → Outcome) : String × (Request → Span × Outcome) :=
  (pattern, fun r =>
    let carrier := r.header
    let parentSpanContext : Option SpanContext :=
      (tracer.extract BuiltinFormat.httpHeaders carrier).toOption
    let spanName := r.method ++ " " ++ pattern
    let span : Span :=
      match parentSpanContext with
      | none => startSpan spanName none fresh
      | some p => startSpan spanName (some p) fresh
    let r := { r with ctx := contextWithSpan r.ctx span }
    let outcome := handler r
    (span.finish, outcome))

/-- The `httptrace.ClientTrace` literal built inside `TraceRequest`: each
callback appends one `LogFields` entry with the fields of the source. -/
def requestTrace : ClientTrace :=
  { getConn := fun hostPort span => span.logFields
      [{ key := "event", value := "Get Connection " },
       { key := "host:port", value := hostPort }]
    gotConn := fun connInfo span => span.logFields
      [{ key := "event", value := "Got Connection" },
       { key := "connection info", value := connInfo }]
    dnsStart := fun dnsInfo span => span.logFields
      [{ key := "event", value := "DNS Start" },
       { key := "dns start info", value := dnsInfo }]
    dnsDone := fun dnsInfo span => span.logFields
      [{ key := "event", value := "DNS Done" },
       { key := "dns done info", value := dnsInfo }]
    connectDone := fun network addr err => fun span => span.logFields
      [{ key := "event", value := "Connect Done" },
       { key := "network", value := network },
       { key := "address", value := addr },
       { key := "error", value := match err with
           | some e => e
           | none => "" }]
    gotFirstResponseByte := fun span => span.logFields
      [{ key := "event", value := "Got First Response Byte" }]
    wroteRequest := fun info span => span.logFields
      [{ key := "event", value := "Wrote Request" },
       { key := "wrote request info", value := info }] }

/-- `TraceRequest` of `src/unnamed/part_000`: starts a span from the
supplied context, injects the span's context into the request headers
(the injection error is discarded — on failure the headers are left as
they were), attaches `requestTrace` to the request's own context, and
returns the augmented request with the still-open span.  It performs no
network call and does not finish the span. -/
def TraceRequest (tracer : Tracer) (fresh : Nat) (operationName : String)
    (ctx : Context) (r : Request) : Request × Span :=
  let sc := startSpanFromContext ctx operationName fresh
  let span := sc.1
  let header :=
    match tracer.inject span.spanContext BuiltinFormat.httpHeaders r.header with
    | Except.ok h => h
    | Except.error _ => r.header
  let r := { r with header := header }
  ({ r with ctx := withClientTrace r.ctx requestTrace }, span)

end Part000

/-- An `httptrace` lifecycle event, carrying the data its callback
receives. -/
inductive TraceEvent where
  | getConn (hostPort : String)
  | gotConn (connInfo : String)
  | dnsStart (info : String)
  | dnsDone (info : String)
  | connectDone (network addr : String) (err : Option String)
  | gotFirstResponseByte
  | wroteRequest (info : String)

/-- Firing one lifecycle event invokes the corresponding callback of the
`ClientTrace` on the span. -/
def fireEvent (t : ClientTrace) (ev : TraceEvent) (s : Span) : Span :=
  match ev with
  | TraceEvent.getConn hp => t.getConn hp s
  | TraceEvent.gotConn i => t.gotConn i s
  | TraceEvent.dnsStart i => t.dnsStart i s
  | TraceEvent.dnsDone i => t.dnsDone i s
  | TraceEvent.connectDone n a e => t.connectDone n a e s
  | TraceEvent.gotFirstResponseByte => t.gotFirstResponseByte s
  | TraceEvent.wroteRequest i => t.wroteRequest i s

/-- Firing a sequence of lifecycle events in order. -/
def fireEvents (t : ClientTrace) (evs : List TraceEvent) (s : Span) : Span :=
  evs.foldl (fun s ev => fireEvent t ev s) s

/-! ## Concrete tracers and fixtures used by the witnesses -/

/-- Unary encoding of a `Nat` as a header value. -/
def encodeNat (n : Nat) : String :=
  String.mk (List.replicate n 'x')

/-- Inverse of `encodeNat`. -/
def decodeNat (s : String) : Nat :=
  s.length

theorem decodeNat_encodeNat (n : Nat) : decodeNat (encodeNat n) = n := by
  show (List.replicate n 'x').length = n
  simp

/-- First value stored under a key in a header map. -/
def lookupHeader (h : Headers) (k : String) : Option String :=
  (h.find? (fun p => p.1 == k)).map Prod.snd

/-- A concrete conformant tracer: `inject` prepends two headers holding the
trace and span ids, `extract` reads them back. -/
def mockTracer : Tracer :=
  { extract := fun fmt h =>
      match fmt with
      | BuiltinFormat.httpHeaders =>
          match lookupHeader h ("mock-traceid"), lookupHeader h ("mock-spanid") with
          | some t, some s =>
              Except.ok { traceID := decodeNat t, spanID := decodeNat s }
          | _, _ => Except.error ("opentracing: SpanContext not found in Extract carrier")
      | _ => Except.error ("opentracing: Unknown or unsupported Extract carrier format")
    inject := fun c fmt h =>
      match fmt with
      | BuiltinFormat.httpHeaders =>
          Except.ok (("mock-traceid", encodeNat c.traceID) ::
            ("mock-spanid", encodeNat c.spanID) :: h)
      | _ => Except.error ("opentracing: Unknown or unsupported Inject carrier format") }

/-- A tracer for which both `Extract` and `Inject` always fail, as over a
request without trace headers, or with a `NoopTracer` global tracer. -/
def failTracer : Tracer :=
  { extract := fun _ _ => Except.error ("opentracing: SpanContext not found in Extract carrier")
    inject := fun _ _ _ => Except.error ("opentracing: Unknown or unsupported Inject carrier format") }

theorem lookupHeader_mock_trace (v w : String) (rest : Headers) :
    lookupHeader (("mock-traceid", v) :: ("mock-spanid", w) :: rest) ("mock-traceid")
      = some v := rfl

theorem lookupHeader_mock_span (v w : String) (rest : Headers) :
    lookupHeader (("mock-traceid", v) :: ("mock-spanid", w) :: rest) ("mock-spanid")
      = some w := rfl

/-- `mockTracer` satisfies the opentracing inject/extract round-trip
contract on the header carrier. -/
theorem mockTracer_roundtrip (c : SpanContext) (hdr hdr' : Headers)
    (h : mockTracer.inject c BuiltinFormat.httpHeaders hdr = Except.ok hdr') :
    mockTracer.extract BuiltinFormat.httpHeaders hdr' = Except.ok c := by
  simp only [mockTracer, Except.ok.injEq] at h
  subst h
  show (match lookupHeader (("mock-traceid", encodeNat c.traceID) ::
        ("mock-spanid", encodeNat c.spanID) :: hdr) ("mock-traceid"),
      lookupHeader (("mock-traceid", encodeNat c.traceID) ::
        ("mock-spanid", encodeNat c.spanID) :: hdr) ("mock-spanid") with
    | some t, some s => Except.ok { traceID := decodeNat t, spanID := decodeNat s }
    | _, _ =>
        Except.error ("opentracing: SpanContext not found in Extract carrier")) = Except.ok c
  rw [lookupHeader_mock_trace, lookupHeader_mock_span]
  simp [decodeNat_encodeNat]

/-- The empty `context.Context`. -/
def emptyContext : Context :=
  { span := none, clientTrace := none }

/-- A GET request with no headers and an empty context. -/
def req0 : Request :=
  { method := "GET", header := [], ctx := emptyContext }

/-- A GET request whose headers carry the context `⟨2, 1⟩` in the
`mockTracer` encoding. -/
def reqTraced : Request :=
  { method := "GET"
    header := [("mock-traceid", encodeNat 2), ("mock-spanid", encodeNat 1)]
    ctx := emptyContext }

/-! ## Theorems settling the claims -/

/-- C1: for every inbound request handled by the handler returned by either
`TraceHandler` variant, the span started for that request is finished
exactly once when the wrapped handler returns, on all exit paths —
including a wrapped handler that panics — since the finish is a deferred
release applied after the handler's outcome, whatever it is. -/
theorem c1_span_finished_exactly_once (tracer : Tracer) (fresh : Nat) (pattern : String)
    (handler : Request → Outcome) (r : Request) :
    ((RootGo.TraceHandler tracer fresh pattern handler).2 r).1.finishCount = 1 ∧
    ((Part000.TraceHandler tracer fresh pattern handler).2 r).1.finishCount = 1 := by
  constructor <;>
    cases h : (tracer.extract BuiltinFormat.httpHeaders r.header).toOption <;>
      simp [RootGo.TraceHandler, Part000.TraceHandler, h, Span.finish, startSpan]

/-- C2: when `SpanContext` extraction from the request headers fails, the
handler returned by either `TraceHandler` variant raises no error — the
wrapped handler is still invoked and its outcome returned — and the span
is started as a root span, with no parent. -/
theorem c2_extract_failure_root_span (tracer : Tracer) (fresh : Nat) (pattern : String)
    (handler : Request → Outcome) (r : Request) (e : String)
    (h : tracer.extract BuiltinFormat.httpHeaders r.header = Except.error e) :
    ((RootGo.TraceHandler tracer fresh pattern handler).2 r).1.parentCtx = none ∧
    ((Part000.TraceHandler tracer fresh pattern handler).2 r).1.parentCtx = none ∧
    (∃ r' : Request, ((Part000.TraceHandler tracer fresh pattern handler).2 r).2 = handler r') := by
  refine ⟨?_, ?_, ?_⟩ <;>
    simp [RootGo.TraceHandler, Part000.TraceHandler, h, Except.toOption, Span.finish, startSpan]

theorem c2_witness :
    failTracer.extract BuiltinFormat.httpHeaders req0.header
      = Except.error ("opentracing: SpanContext not found in Extract carrier") ∧
    ((RootGo.TraceHandler failTracer 0 ("/foo") (fun _ => Outcome.normal)).2 req0).1.parentCtx
      = none :=
  ⟨rfl, (c2_extract_failure_root_span failTracer 0 ("/foo") (fun _ => Outcome.normal)
    req0 ("opentracing: SpanContext not found in Extract carrier") rfl).1⟩

/-- C3: when the request headers carry a `SpanContext` that extraction
succeeds on, the span started by the handler returned by either
`TraceHandler` variant is recorded as a child of that extracted context. -/
theorem c3_child_of_extracted_context (tracer : Tracer) (fresh : Nat) (pattern : String)
    (handler : Request → Outcome) (r : Request) (p : SpanContext)
    (h : tracer.extract BuiltinFormat.httpHeaders r.header = Except.ok p) :
    ((RootGo.TraceHandler tracer fresh pattern handler).2 r).1.parentCtx = some p ∧
    ((Part000.TraceHandler tracer fresh pattern handler).2 r).1.parentCtx = some p := by
  constructor <;>
    simp [RootGo.TraceHandler, Part000.TraceHandler, h, Except.toOption, Span.finish, startSpan]

theorem c3_witness :
    mockTracer.extract BuiltinFormat.httpHeaders reqTraced.header
      = Except.ok { traceID := 2, spanID := 1 } ∧
    ((Part000.TraceHandler mockTracer 7 ("/foo") (fun _ => Outcome.normal)).2 reqTraced).1.parentCtx
      = some { traceID := 2, spanID := 1 } :=
  ⟨rfl, (c3_child_of_extracted_context mockTracer 7 ("/foo") (fun _ => Outcome.normal)
    reqTraced { traceID := 2, spanID := 1 } rfl).2⟩

/-- C4: `TraceRequest` starts a new span named by the operation, as a
child of the span found in the supplied context (root when there is
none), serializes the span's context into the request's headers when
injection succeeds, and returns the augmented request with the still-open
span — its finish count is `0` and it has logged nothing, so finishing
and error tagging are left to the caller; no network call occurs in its
definition. -/
theorem c4_traceRequest_contract (tracer : Tracer) (fresh : Nat) (operationName : String)
    (ctx : Context) (r : Request) :
    (Part000.TraceRequest tracer fresh operationName ctx r).2.operationName = operationName ∧
    (Part000.TraceRequest tracer fresh operationName ctx r).2.parentCtx
      = Option.map Span.spanContext (spanFromContext ctx) ∧
    (Part000.TraceRequest tracer fresh operationName ctx r).2.finishCount = 0 ∧
    (Part000.TraceRequest tracer fresh operationName ctx r).2.logs = [] ∧
    (∀ h : Headers,
      tracer.inject (Part000.TraceRequest tracer fresh operationName ctx r).2.spanContext
          BuiltinFormat.httpHeaders r.header = Except.ok h →
        (Part000.TraceRequest tracer fresh operationName ctx r).1.header = h) := by
  have h2 : (Part000.TraceRequest tracer fresh operationName ctx r).2
      = (startSpanFromContext ctx operationName fresh).1 := rfl
  have h1 : (Part000.TraceRequest tracer fresh operationName ctx r).1.header
      = (match tracer.inject (startSpanFromContext ctx operationName fresh).1.spanContext
            BuiltinFormat.httpHeaders r.header with
        | Except.ok h => h
        | Except.error _ => r.header) := rfl
  refine ⟨?_, ?_, ?_, ?_, ?_⟩
  · rw [h2]; cases hs : spanFromContext ctx <;>
      simp [startSpanFromContext, hs, startSpan]
  · rw [h2]; cases hs : spanFromContext ctx <;>
      simp [startSpanFromContext, hs, startSpan]
  · rw [h2]; cases hs : spanFromContext ctx <;>
      simp [startSpanFromContext, hs, startSpan]
  · rw [h2]; cases hs : spanFromContext ctx <;>
      simp [startSpanFromContext, hs, startSpan]
  · intro h hok
    rw [h2] at hok
    rw [h1, hok]

theorem c4_witness :
    (Part000.TraceRequest mockTracer 5 ("GET example.com") emptyContext req0).2.operationName
      = "GET example.com" ∧
    (Part000.TraceRequest mockTracer 5 ("GET example.com") emptyContext req0).1.header
      = [("mock-traceid", encodeNat 5), ("mock-spanid", encodeNat 5)] :=
  ⟨(c4_traceRequest_contract mockTracer 5 ("GET example.com") emptyContext req0).1,
   (c4_traceRequest_contract mockTracer 5 ("GET example.com") emptyContext req0).2.2.2.2
     ([("mock-traceid", encodeNat 5), ("mock-spanid", encodeNat 5)]) rfl⟩

/-- C5: when the tracer satisfies the opentracing inject/extract round-trip
contract on the header format and injection succeeds on the request's
headers, extracting from the headers of the request returned by
`TraceRequest`, with the same carrier format used for injection,
reproduces exactly the context of the span `TraceRequest` returned. -/
theorem c5_inject_extract_roundtrip (tracer : Tracer) (fresh : Nat) (operationName : String)
    (ctx : Context) (r : Request)
    (hrt : ∀ (c : SpanContext) (hdr hdr' : Headers),
      tracer.inject c BuiltinFormat.httpHeaders hdr = Except.ok hdr' →
        tracer.extract BuiltinFormat.httpHeaders hdr' = Except.ok c)
    (hok : ∃ hdr' : Headers,
      tracer.inject (Part000.TraceRequest tracer fresh operationName ctx r).2.spanContext
          BuiltinFormat.httpHeaders r.header = Except.ok hdr') :
    tracer.extract BuiltinFormat.httpHeaders
        (Part000.TraceRequest tracer fresh operationName ctx r).1.header
      = Except.ok (Part000.TraceRequest tracer fresh operationName ctx r).2.spanContext := by
  obtain ⟨hdr', hok⟩ := hok
  have h2 : (Part000.TraceRequest tracer fresh operationName ctx r).2
      = (startSpanFromContext ctx operationName fresh).1 := rfl
  rw [h2] at hok ⊢
  have h1 : (Part000.TraceRequest tracer fresh operationName ctx r).1.header
      = (match tracer.inject (startSpanFromContext ctx operationName fresh).1.spanContext
            BuiltinFormat.httpHeaders r.header with
        | Except.ok h => h
        | Except.error _ => r.header) := rfl
  rw [h1, hok]
  exact hrt _ _ _ hok

theorem c5_witness :
    mockTracer.extract BuiltinFormat.httpHeaders
        (Part000.TraceRequest mockTracer 5 ("op") emptyContext req0).1.header
      = Except.ok (Part000.TraceRequest mockTracer 5 ("op") emptyContext req0).2.spanContext :=
  c5_inject_extract_roundtrip mockTracer 5 ("op") emptyContext req0
    (fun c hdr hdr' h => mockTracer_roundtrip c hdr hdr' h)
    ⟨("mock-traceid", encodeNat 5) :: ("mock-spanid", encodeNat 5) :: [], rfl⟩

theorem fireEvent_requestTrace_length (ev : TraceEvent) (s : Span) :
    (fireEvent Part000.requestTrace ev s).logs.length = s.logs.length + 1 := by
  cases ev <;> simp [fireEvent, Part000.requestTrace, Span.logFields]

theorem fireEvents_requestTrace_length (evs : List TraceEvent) (s : Span) :
    (fireEvents Part000.requestTrace evs s).logs.length = s.logs.length + evs.length := by
  induction evs generalizing s with
  | nil => rfl
  | cons ev rest ih =>
      have h1 : fireEvents Part000.requestTrace (ev :: rest) s
          = fireEvents Part000.requestTrace rest (fireEvent Part000.requestTrace ev s) := rfl
      rw [h1, ih, fireEvent_requestTrace_length]
      simp [List.length_cons]
      omega

/-- C6: the request returned by `TraceRequest` carries the lifecycle
callback set `requestTrace` in its context; each of its callbacks
(get-connection, got-connection, DNS start, DNS done, connect done,
got-first-response-byte, wrote-request) appends exactly one log entry to
the span each time its event fires, and a run of any sequence of events
appends exactly one entry per fired event — in particular an event that
does not fire (e.g. DNS for an IP-literal host) contributes no entry. -/
theorem c6_lifecycle_callbacks_log_once (tracer : Tracer) (fresh : Nat)
    (operationName : String) (ctx : Context) (r : Request) :
    (Part000.TraceRequest tracer fresh operationName ctx r).1.ctx.clientTrace
      = some Part000.requestTrace ∧
    (∀ (ev : TraceEvent) (s : Span),
      (fireEvent Part000.requestTrace ev s).logs.length = s.logs.length + 1) ∧
    (∀ (evs : List TraceEvent) (s : Span),
      (fireEvents Part000.requestTrace evs s).logs.length = s.logs.length + evs.length) :=
  ⟨rfl, fireEvent_requestTrace_length, fireEvents_requestTrace_length⟩

/-- C7 counterexample: for the `TraceHandler` of `src/unnamed/part_000`,
a GET request with no incoming trace header to the pattern `"/foo"`
yields a span named `"GET /foo"`, not `"/foo"`: that variant prefixes the
HTTP method to the pattern. -/
theorem c7_counterexample :
    ((Part000.TraceHandler failTracer 0 ("/foo") (fun _ => Outcome.normal)).2 req0).1.operationName
      ≠ "/foo" := by
  decide

/-- C7 amended: for an inbound request with no extractable trace header to
the handler produced by `TraceHandler` with pattern `"/foo"`, the started
span is a root span with no parent and is finished after the wrapped
handler returns; it is named after the pattern — `"/foo"` exactly in the
`src/opentracing_helpers.go` variant, while the `src/unnamed/part_000`
variant prefixes the HTTP method, naming it `method ++ " " ++ "/foo"`. -/
theorem c7_amended_foo_scenario (tracer : Tracer) (fresh : Nat)
    (handler : Request → Outcome) (r : Request) (e : String)
    (h : tracer.extract BuiltinFormat.httpHeaders r.header = Except.error e) :
    ((RootGo.TraceHandler tracer fresh ("/foo") handler).2 r).1.operationName = "/foo" ∧
    ((RootGo.TraceHandler tracer fresh ("/foo") handler).2 r).1.parentCtx = none ∧
    ((RootGo.TraceHandler tracer fresh ("/foo") handler).2 r).1.finishCount = 1 ∧
    ((Part000.TraceHandler tracer fresh ("/foo") handler).2 r).1.operationName
      = r.method ++ " " ++ "/foo" ∧
    ((Part000.TraceHandler tracer fresh ("/foo") handler).2 r).1.parentCtx = none ∧
    ((Part000.TraceHandler tracer fresh ("/foo") handler).2 r).1.finishCount = 1 := by
  refine ⟨?_, ?_, ?_, ?_, ?_, ?_⟩ <;>
    simp [RootGo.TraceHandler, Part000.TraceHandler, h, Except.toOption, Span.finish, startSpan]

theorem c7_witness :
    failTracer.extract BuiltinFormat.httpHeaders req0.header
      = Except.error ("opentracing: SpanContext not found in Extract carrier") ∧
    (((RootGo.TraceHandler failTracer 0 ("/foo") (fun _ => Outcome.normal)).2 req0).1.operationName
        = "/foo" ∧
      ((Part000.TraceHandler failTracer 0 ("/foo") (fun _ => Outcome.normal)).2 req0).1.operationName
        = "GET " ++ "/foo") :=
  ⟨rfl,
    (c7_amended_foo_scenario failTracer 0 (fun _ => Outcome.normal) req0
      ("opentracing: SpanContext not found in Extract carrier") rfl).1,
    (c7_amended_foo_scenario failTracer 0 (fun _ => Outcome.normal) req0
      ("opentracing: SpanContext not found in Extract carrier") rfl).2.2.2.1⟩

/-- C8: for every inbound request, the handler returned by either
`TraceHandler` variant invokes the original handler on the request whose
context has been enriched with the started — still unfinished — span;
the span eventually returned is exactly that span, finished. -/
theorem c8_span_stored_in_request_context (tracer : Tracer) (fresh : Nat) (pattern : String)
    (handler : Request → Outcome) (r : Request) :
    (∃ s : Span, s.finishCount = 0 ∧
      ((Part000.TraceHandler tracer fresh pattern handler).2 r).2
        = handler { r with ctx := contextWithSpan r.ctx s } ∧
      ((Part000.TraceHandler tracer fresh pattern handler).2 r).1 = s.finish) ∧
    (∃ s : Span, s.finishCount = 0 ∧
      ((RootGo.TraceHandler tracer fresh pattern handler).2 r).2
        = handler { r with ctx := contextWithSpan r.ctx s } ∧
      ((RootGo.TraceHandler tracer fresh pattern handler).2 r).1 = s.finish) := by
  constructor <;>
  · refine ⟨_, ?_, rfl, rfl⟩
    cases h : (tracer.extract BuiltinFormat.httpHeaders r.header).toOption <;>
      simp [h, startSpan]

/-- C9: `TraceRequest` discards the error of the tracer's `Inject` call:
with a tracer whose injection always fails, `TraceRequest` still returns
the request — its headers unchanged, without trace headers — together
with the started, still-open span; no error reaches the caller. -/
theorem c9_inject_error_discarded (tracer : Tracer) (fresh : Nat) (operationName : String)
    (ctx : Context) (r : Request)
    (h : ∀ (c : SpanContext) (hdr : Headers), ∃ e : String,
      tracer.inject c BuiltinFormat.httpHeaders hdr = Except.error e) :
    (Part000.TraceRequest tracer fresh operationName ctx r).1.header = r.header ∧
    (Part000.TraceRequest tracer fresh operationName ctx r).2.operationName = operationName ∧
    (Part000.TraceRequest tracer fresh operationName ctx r).2.finishCount = 0 := by
  obtain ⟨e, he⟩ :=
    h ((startSpanFromContext ctx operationName fresh).1.spanContext) r.header
  have h2 : (Part000.TraceRequest tracer fresh operationName ctx r).2
      = (startSpanFromContext ctx operationName fresh).1 := rfl
  have h1 : (Part000.TraceRequest tracer fresh operationName ctx r).1.header
      = (match tracer.inject (startSpanFromContext ctx operationName fresh).1.spanContext
            BuiltinFormat.httpHeaders r.header with
        | Except.ok h => h
        | Except.error _ => r.header) := rfl
  refine ⟨?_, ?_, ?_⟩
  · rw [h1, he]
  · rw [h2]; cases hs : spanFromContext ctx <;>
      simp [startSpanFromContext, hs, startSpan]
  · rw [h2]; cases hs : spanFromContext ctx <;>
      simp [startSpanFromContext, hs, startSpan]

theorem c9_witness :
    (Part000.TraceRequest failTracer 3 ("op") emptyContext req0).1.header = req0.header ∧
    (Part000.TraceRequest failTracer 3 ("op") emptyContext req0).2.operationName = "op" :=
  ⟨(c9_inject_error_discarded failTracer 3 ("op") emptyContext req0
      (fun _ _ => ⟨("opentracing: Unknown or unsupported Inject carrier format"), rfl⟩)).1,
   (c9_inject_error_discarded failTracer 3 ("op") emptyContext req0
      (fun _ _ => ⟨("opentracing: Unknown or unsupported Inject carrier format"), rfl⟩)).2.1⟩

/-- C10: when the supplied context contains no span, `TraceRequest` starts
the outbound span as a root span — no parent — rather than failing. -/
theorem c10_no_span_in_context_root (tracer : Tracer) (fresh : Nat) (operationName : String)
    (ctx : Context) (r : Request) (h : ctx.span = none) :
    (Part000.TraceRequest tracer fresh operationName ctx r).2.parentCtx = none := by
  have h2 : (Part000.TraceRequest tracer fresh operationName ctx r).2
      = (startSpanFromContext ctx operationName fresh).1 := rfl
  rw [h2]
  simp [startSpanFromContext, spanFromContext, h, startSpan]

theorem c10_witness :
    (Part000.TraceRequest mockTracer 4 ("op2") emptyContext req0).2.parentCtx = none :=
  c10_no_span_in_context_root mockTracer 4 ("op2") emptyContext req0 rfl

end OpentracingHelpers
